import Mathlib

/-!
Verification of the Telegram Message Forwarder's decision and enrichment
pipeline, shallowly embedded from the Python sources under `src/`.

Conventions of the embedding:
* Python strings are `String`; Python `int` is `Int`; Python `None` is
  `Option.none`.
* Python attributes probed only for truthiness (where `''` and absence are
  indistinguishable to the code) are plain `String` fields with `""` as the
  falsy value; attributes probed with `hasattr` whose value may itself be
  `None` are `Option (Option Int)`.
* Network calls (the Telethon client) are oracles: a function argument whose
  `none` result stands for either an exception or an empty answer, exactly
  when the code treats the two identically (each call site is wrapped in
  `try/except` that logs and falls through).
* Mutable instance state (the caches of `EntityManager` and `LinkManager`)
  is threaded explicitly: each operation takes and returns the state.
-/

/-- Association-list lookup, standing in for a Python dict probe
(`key in d` / `d[key]`). -/
def alist_get {κ α : Type} [DecidableEq κ] : List (κ × α) → κ → Option α
  | [], _ => none
  | (k, v) :: rest, key => if k = key then some v else alist_get rest key

/-- Association-list update, standing in for a Python dict assignment
`d[key] = v` (replaces an existing binding, else appends). -/
def alist_set {κ α : Type} [DecidableEq κ] : List (κ × α) → κ → α → List (κ × α)
  | [], key, v => [(key, v)]
  | (k, w) :: rest, key, v =>
    if k = key then (key, v) :: rest else (k, w) :: alist_set rest key v

/-- Python `str.startswith(p)`; phrased on the character list so that the
kernel can evaluate it on literals. -/
def strStartsWith (s p : String) : Bool := p.data.isPrefixOf s.data

/-- Python slicing `s[n:]`. -/
def strDrop (s : String) (n : Nat) : String := ⟨s.data.drop n⟩

/-- Python `s.lstrip('-')`: remove every leading `'-'` character. -/
def strLstripMinus (s : String) : String := ⟨s.data.dropWhile (fun c => c == '-')⟩

/-! ## `src/forwarder/utils.py` — `normalize_chat_id` -/

/-- From `utils.normalize_chat_id` (utils.py:36-61): expand a chat identifier
(already in text form, Python's `str(chat_id)`) into the ordered list of
candidate rule keys. -/
def normalize_chat_id (chat_id : String) : List String :=
  if strStartsWith chat_id "-100" then
    [chat_id, strDrop chat_id 4, "-" ++ strDrop chat_id 4]
  else
    [chat_id, "-100" ++ strLstripMinus chat_id]

/-- Entry point for a numeric identifier: Python first applies `str`. -/
def normalize_chat_id_of_int (chat_id : Int) : List String :=
  normalize_chat_id (toString chat_id)

/-! ## `src/forwarder/rules.py` — `RuleManager.should_forward` -/

/-- A target entry of the rule file:
`{ "chat_id": str, "topic_id": int|null, "user_ids": [int]? }`.
A missing `user_ids` key is read back by the code as `[]`
(`target.get("user_ids", [])`), so `[]` models absence. -/
structure FwdTarget where
  chat_id : String
  topic_id : Option Int
  user_ids : List Int
deriving DecidableEq, Repr

/-- One element of the list `should_forward` returns. -/
structure FwdDecision where
  to_chat : String
  to_topic : Option Int
  include_source : Bool
deriving DecidableEq, Repr

/-- One rule entry: topic key (`"*"` or a topic id's string form) → targets. -/
def RuleEntry : Type := List (String × List FwdTarget)

instance : DecidableEq RuleEntry := by unfold RuleEntry; infer_instance

/-- The whole rule table: source chat key → rule entry. -/
def RuleTable : Type := List (String × RuleEntry)

instance : DecidableEq RuleTable := by unfold RuleTable; infer_instance

/-- The user-filter test of rules.py:67-70 and 83-87:
`if user_ids and user_id is not None and user_id not in user_ids: continue`. -/
def userFilterExcludes (user_ids : List Int) (user_id : Option Int) : Bool :=
  !user_ids.isEmpty &&
    (match user_id with
     | some u => decide (u ∉ user_ids)
     | none => false)

/-- The per-target append loop bodies of rules.py:64-76 and 81-93, which walk
a target list and append a decision for each target passing the user filter. -/
def collectTargets (targets : List FwdTarget) (user_id : Option Int) :
    List FwdDecision :=
  targets.foldl
    (fun acc t =>
      if userFilterExcludes t.user_ids user_id then acc
      else acc ++ [⟨t.chat_id, t.topic_id, true⟩])
    []

/-- The candidate scan of rules.py:49-54: probe the candidate keys in order
and freeze the first entry present in the table. -/
def findMatchingRules (rules : RuleTable) : List String → Option RuleEntry
  | [] => none
  | k :: ks =>
    match alist_get rules k with
    | some e => some e
    | none => findMatchingRules rules ks

/-- From `RuleManager.should_forward` (rules.py:29-96). -/
def should_forward (rules : RuleTable) (chat_id : String)
    (topic_id : Option Int) (user_id : Option Int) : List FwdDecision :=
  let potential_ids := normalize_chat_id chat_id
  match findMatchingRules rules potential_ids with
  | none => []
  | some matching_rules =>
    let chat_level :=
      match alist_get matching_rules "*" with
      | some targets => collectTargets targets user_id
      | none => []
    let topic_level :=
      match topic_id with
      | some t =>
        match alist_get matching_rules (toString t) with
        | some targets => collectTargets targets user_id
        | none => []
      | none => []
    chat_level ++ topic_level

/-- Spec-side view of the wildcard (`"*"`) part of a matched entry:
the targets surviving the user filter, as decisions. -/
def starDecisions (entry : RuleEntry) (user_id : Option Int) :
    List FwdDecision :=
  match alist_get entry "*" with
  | some targets =>
    (targets.filter (fun t => !userFilterExcludes t.user_ids user_id)).map
      (fun t => ⟨t.chat_id, t.topic_id, true⟩)
  | none => []

/-- Spec-side view of the topic-keyed part of a matched entry. -/
def topicDecisions (entry : RuleEntry) (topic_id : Option Int)
    (user_id : Option Int) : List FwdDecision :=
  match topic_id with
  | some t =>
    match alist_get entry (toString t) with
    | some targets =>
      (targets.filter (fun t => !userFilterExcludes t.user_ids user_id)).map
        (fun t => ⟨t.chat_id, t.topic_id, true⟩)
    | none => []
  | none => []

lemma collectTargets_go (targets : List FwdTarget) (user_id : Option Int)
    (acc : List FwdDecision) :
    targets.foldl
      (fun acc t =>
        if userFilterExcludes t.user_ids user_id then acc
        else acc ++ [⟨t.chat_id, t.topic_id, true⟩])
      acc
      = acc ++
        (targets.filter (fun t => !userFilterExcludes t.user_ids user_id)).map
          (fun t => ⟨t.chat_id, t.topic_id, true⟩) := by
  induction targets generalizing acc with
  | nil => simp
  | cons t rest ih =>
    by_cases h : userFilterExcludes t.user_ids user_id
    · simp [List.foldl_cons, h, ih, List.filter_cons]
    · simp [List.foldl_cons, h, ih, List.filter_cons]

lemma collectTargets_eq (targets : List FwdTarget) (user_id : Option Int) :
    collectTargets targets user_id
      = (targets.filter (fun t => !userFilterExcludes t.user_ids user_id)).map
          (fun t => ⟨t.chat_id, t.topic_id, true⟩) := by
  simpa using collectTargets_go targets user_id []

lemma findMatchingRules_nil (ks : List String) :
    findMatchingRules ([] : RuleTable) ks = none := by
  induction ks with
  | nil => rfl
  | cons k ks ih => simpa [findMatchingRules, alist_get] using ih

/-- `findMatchingRules` freezes the first candidate key present in the table. -/
lemma findMatchingRules_eq_find (rules : RuleTable) (ks : List String) :
    findMatchingRules rules ks
      = match ks.find? (fun k => (alist_get rules k).isSome) with
        | some k => alist_get rules k
        | none => none := by
  induction ks with
  | nil => rfl
  | cons k ks ih =>
    cases h : alist_get rules k with
    | some e =>
      have hp : (fun k => (alist_get rules k).isSome) k = true := by
        simp [h]
      simp [findMatchingRules, h, List.find?_cons_of_pos _ hp]
    | none =>
      have hp : ¬ (fun k => (alist_get rules k).isSome) k = true := by
        simp [h]
      simp [findMatchingRules, h, List.find?_cons_of_neg _ hp, ih]

/-! ## Claim theorems: normalization (C5, C6) -/

/-- C5: for every chat identifier, normalization returns exactly
`[as-is, prefix-stripped, stripped-with-single-minus]` when the text form
starts with `"-100"`, and exactly `[as-is, "-100" ++ digits-with-leading-minus-
signs-removed]` otherwise; a numeric identifier is first rendered as text. -/
theorem normalize_chat_id_spec (c : String) :
    (strStartsWith c "-100" = true →
      normalize_chat_id c = [c, strDrop c 4, "-" ++ strDrop c 4])
    ∧ (strStartsWith c "-100" = false →
      normalize_chat_id c = [c, "-100" ++ strLstripMinus c])
    ∧ (∀ i : Int, normalize_chat_id_of_int i = normalize_chat_id (toString i)) := by
  refine ⟨fun h => ?_, fun h => ?_, fun i => rfl⟩
  · simp [normalize_chat_id, h]
  · simp [normalize_chat_id, h]

theorem normalize_chat_id_spec_witness :
    normalize_chat_id "-1001234" = ["-1001234", "1234", "-1234"]
    ∧ normalize_chat_id "1234" = ["1234", "-1001234"]
    ∧ normalize_chat_id_of_int (-5) = normalize_chat_id "-5" := by
  refine ⟨?_, ?_, (normalize_chat_id_spec "-5").2.2 (-5)⟩
  · have h := (normalize_chat_id_spec "-1001234").1 (by decide)
    rw [h]; decide
  · have h := (normalize_chat_id_spec "1234").2.1 (by decide)
    rw [h]; decide

/-- C6: normalization is deterministic (a pure function of its input), and
re-normalizing any candidate it produced yields a list containing that
candidate. -/
theorem normalize_chat_id_stable (c x : String)
    (h : x ∈ normalize_chat_id c) :
    x ∈ normalize_chat_id x
    ∧ (∀ d : String, c = d → normalize_chat_id c = normalize_chat_id d) := by
  refine ⟨?_, fun d hd => by rw [hd]⟩
  unfold normalize_chat_id
  split <;> exact List.mem_cons_self _ _

theorem normalize_chat_id_stable_witness :
    "1234" ∈ normalize_chat_id "1234"
    ∧ (∀ d : String, "-1001234" = d →
        normalize_chat_id "-1001234" = normalize_chat_id d) :=
  ⟨(normalize_chat_id_stable "-1001234" "1234" (by decide)).1,
   (normalize_chat_id_stable "-1001234" "1234" (by decide)).2⟩

/-! ## Claim theorems: rule matching (C1, C2) -/

/-- C1: `should_forward` probes the normalized candidate keys in order and
freezes the first entry present as the sole match (rules under other candidate
keys are never merged: the decision is a function of that single entry); the
decision is exactly the matched entry's `"*"` targets passing the user filter
followed by the targets keyed by the topic id's string form passing the user
filter, so its length is the sum of the two parts; with no candidate present
(in particular for the empty table) the decision is empty. -/
theorem should_forward_spec (rules : RuleTable) (c : String)
    (t u : Option Int) :
    (findMatchingRules rules (normalize_chat_id c) = none →
      should_forward rules c t u = [])
    ∧ (∀ entry, findMatchingRules rules (normalize_chat_id c) = some entry →
        should_forward rules c t u
          = starDecisions entry u ++ topicDecisions entry t u
        ∧ (should_forward rules c t u).length
          = (starDecisions entry u).length + (topicDecisions entry t u).length)
    ∧ (∀ ks : List String,
        findMatchingRules rules ks
          = match ks.find? (fun k => (alist_get rules k).isSome) with
            | some k => alist_get rules k
            | none => none)
    ∧ should_forward [] c t u = [] := by
  refine ⟨fun h => ?_, fun entry h => ?_, findMatchingRules_eq_find rules, ?_⟩
  · simp [should_forward, h]
  · have hmain : should_forward rules c t u
        = starDecisions entry u ++ topicDecisions entry t u := by
      simp only [should_forward, h, starDecisions, topicDecisions]
      cases hs : alist_get entry "*" with
      | none =>
        cases t with
        | none => simp [hs]
        | some tv =>
          cases ht : alist_get entry (toString tv) <;>
            simp [hs, ht, collectTargets_eq]
      | some targets =>
        cases t with
        | none => simp [hs, collectTargets_eq]
        | some tv =>
          cases ht : alist_get entry (toString tv) <;>
            simp [hs, ht, collectTargets_eq]
    exact ⟨hmain, by rw [hmain, List.length_append]⟩
  · simp [should_forward, findMatchingRules_nil]

/-- The rule table of the spec scenario:
`{"-1001234": {"*": [{"chat_id": "999"}]}}`. -/
def scenarioRules : RuleTable :=
  [("-1001234", [("*", [⟨"999", none, []⟩])])]

/-- The scenario's matched entry. -/
def scenarioEntry : RuleEntry := [("*", [⟨"999", none, []⟩])]

theorem should_forward_spec_witness :
    should_forward scenarioRules "1234" none none
      = starDecisions scenarioEntry none ++ topicDecisions scenarioEntry none none
    ∧ should_forward scenarioRules "1234" none none
      = [⟨"999", none, true⟩] := by
  have h := (should_forward_spec scenarioRules "1234" none none).2.1
    scenarioEntry (by decide)
  exact ⟨h.1, by rw [h.1]; decide⟩

/-- The singleton rule table used by the C2 examples: chat `"5"` forwards to
`"9"`, restricted to sender 42. -/
def demoRules : RuleTable := [("5", [("*", [⟨"9", none, [42]⟩])])]

/-- C2: a target evaluated by `should_forward` is excluded from the decision
iff its `user_ids` list is non-empty, the sender is known and the sender is
absent from the list; the decision keeps exactly the targets passing this
filter; a target with `user_ids = [42]` is included for sender 42, excluded
for sender 7, and included for an unknown sender. -/
theorem user_filter_spec :
    (∀ (user_ids : List Int) (user_id : Option Int),
      userFilterExcludes user_ids user_id = true
        ↔ user_ids ≠ [] ∧ ∃ x, user_id = some x ∧ x ∉ user_ids)
    ∧ (∀ (targets : List FwdTarget) (user_id : Option Int),
        collectTargets targets user_id
          = (targets.filter
              (fun tg => !userFilterExcludes tg.user_ids user_id)).map
              (fun tg => ⟨tg.chat_id, tg.topic_id, true⟩))
    ∧ should_forward demoRules "5" none (some 42) = [⟨"9", none, true⟩]
    ∧ should_forward demoRules "5" none (some 7) = []
    ∧ should_forward demoRules "5" none none = [⟨"9", none, true⟩] := by
  refine ⟨fun user_ids user_id => ?_, collectTargets_eq, by decide, by decide,
    by decide⟩
  cases user_id with
  | none => simp [userFilterExcludes]
  | some u =>
    cases user_ids with
    | nil => simp [userFilterExcludes]
    | cons a l => simp [userFilterExcludes]

/-! ## `src/forwarder/entities.py` — `EntityManager` -/

/-- A Python dict key as used by the caches: event handlers pass `int` chat
ids, the link manager passes strings; the two never collide as dict keys. -/
inductive PyKey where
  | i : Int → PyKey
  | s : String → PyKey
deriving DecidableEq, Repr

/-- Python `str(chat_id)` on a cache key. -/
def keyText : PyKey → String
  | .i n => toString n
  | .s st => st

/-- The slice of a Telethon entity object the code inspects.  `isChannel`
models `isinstance(entity, Channel)`; the Bool fields model `getattr(e, f,
False)`; `title` models `getattr(entity, 'title', default)` with `none` for
an absent attribute. -/
structure PyEntity where
  isChannel : Bool
  noforwards : Bool
  megagroup : Bool
  forum : Bool
  title : Option String
deriving DecidableEq, Repr

/-- The mutable state of `EntityManager` (entities.py:29-35): the entity
cache, the topic-name cache and the sticky no-forward set. -/
structure EMState where
  chat_entities : List (PyKey × PyEntity)
  chat_topics : List (PyKey × List (Int × String))
  no_forward_chats : List PyKey
deriving DecidableEq, Repr

/-- From `EntityManager.get_entity` (entities.py:37-63).  `resolve` is the
transport oracle: the result of `client.get_entity` after the code's
int/username argument massaging, with `none` for any exception (including a
failing `int(chat_id)` conversion).  A successful lookup is cached; a failure
caches nothing and returns `none`. -/
def get_entity (resolve : PyKey → Option PyEntity) (st : EMState)
    (chat_id : PyKey) : EMState × Option PyEntity :=
  match alist_get st.chat_entities chat_id with
  | some e => (st, some e)
  | none =>
    match resolve chat_id with
    | some e =>
      ({ st with chat_entities := alist_set st.chat_entities chat_id e },
       some e)
    | none => (st, none)

/-- From `EntityManager.get_chat_title` (entities.py:65-78). -/
def get_chat_title (resolve : PyKey → Option PyEntity) (st : EMState)
    (chat_id : PyKey) : EMState × String :=
  let r := get_entity resolve st chat_id
  match r.2 with
  | some e => (r.1, e.title.getD ("Chat " ++ keyText chat_id))
  | none => (r.1, "Chat " ++ keyText chat_id)

/-- Python truthiness of an optional int (`if not topic_id`): `None` and `0`
are falsy. -/
def truthyOptInt : Option Int → Bool
  | none => false
  | some n => decide (n ≠ 0)

/-- The transport oracles consumed by `get_topic_name`.  Each models one
client call, already folded with its `try/except`: `fullTopics` is the
forum-topic listing of `GetFullChannelRequest` (`none` = exception or no
listing), `starterTitle` the titled topic-starter message of
`GetMessagesRequest`, `discussionTitle` the titled message of
`GetDiscussionMessageRequest`; for the latter two `none` covers an exception,
an empty result, or a message without a truthy title, which the code treats
identically (fall through to the next method, cache nothing). -/
structure TopicOracle where
  resolve : PyKey → Option PyEntity
  fullTopics : PyKey → Option (List (Int × String))
  starterTitle : PyKey → Int → Option String
  discussionTitle : PyKey → Int → Option String

/-- Store one topic name in the nested cache (`self.chat_topics[chat_id]
[topic_id] = name`). -/
def cacheTopic (st : EMState) (chat_id : PyKey) (t : Int) (name : String) :
    EMState :=
  { st with
      chat_topics :=
        alist_set st.chat_topics chat_id
          (alist_set ((alist_get st.chat_topics chat_id).getD []) t name) }

/-- entities.py:99-100: `if chat_id not in self.chat_topics:
self.chat_topics[chat_id] = \x7b\x7d`. -/
def topicCacheInit (st : EMState) (chat_id : PyKey) : EMState :=
  if (alist_get st.chat_topics chat_id).isNone then
    { st with chat_topics := alist_set st.chat_topics chat_id [] }
  else st

/-- Method 1 of `get_topic_name` (entities.py:106-118): for a megagroup
channel entity, fetch the forum-topic listing, cache every listed topic, and
answer from the refreshed per-chat cache. -/
def topicMethod1 (o : TopicOracle) (ent : Option PyEntity) (st : EMState)
    (chat_id : PyKey) (t : Int) : EMState × Option String :=
  match ent with
  | some e =>
    if e.isChannel && e.megagroup then
      match o.fullTopics chat_id with
      | some listing =>
        let m0 := (alist_get st.chat_topics chat_id).getD []
        let m1 := listing.foldl (fun m p => alist_set m p.1 p.2) m0
        ({ st with chat_topics := alist_set st.chat_topics chat_id m1 },
         alist_get m1 t)
      | none => (st, none)
    else (st, none)
  | none => (st, none)

/-- The truthy-topic-id tail of `EntityManager.get_topic_name`
(entities.py:94-158): cache probe, the three lookup methods in order, then
the cached `"Topic {id}"` fallback.  Every return statement in this region
of the source yields a string, which the result type records. -/
def getTopicNameTruthy (o : TopicOracle) (st : EMState) (chat_id : PyKey)
    (t : Int) : EMState × String :=
  match (alist_get st.chat_topics chat_id).bind (fun m => alist_get m t) with
  | some name => (st, name)
  | none =>
    let st1 := topicCacheInit st chat_id
    let r := get_entity o.resolve st1 chat_id
    let firstTry := topicMethod1 o r.2 r.1 chat_id t
    match firstTry.2 with
    | some name => (firstTry.1, name)
    | none =>
      match o.starterTitle chat_id t with
      | some title => (cacheTopic firstTry.1 chat_id t title, title)
      | none =>
        match o.discussionTitle chat_id t with
        | some title => (cacheTopic firstTry.1 chat_id t title, title)
        | none =>
          let fallback_name := "Topic " ++ toString t
          (cacheTopic firstTry.1 chat_id t fallback_name, fallback_name)

/-- From `EntityManager.get_topic_name` (entities.py:80-158).  A falsy topic
id (`if not topic_id: return None`) returns `none` before any cache or
network access; otherwise the truthy tail runs. -/
def get_topic_name (o : TopicOracle) (st : EMState) (chat_id : PyKey)
    (topic_id : Option Int) : EMState × Option String :=
  if truthyOptInt topic_id = false then (st, none)
  else
    let r := getTopicNameTruthy o st chat_id (topic_id.getD 0)
    (r.1, some r.2)

/-- From `EntityManager.can_forward_from_chat` (entities.py:160-190). -/
def can_forward_from_chat (resolve : PyKey → Option PyEntity) (st : EMState)
    (chat_id : PyKey) : EMState × Bool :=
  if chat_id ∈ st.no_forward_chats then (st, false)
  else
    let r := get_entity resolve st chat_id
    match r.2 with
    | none =>
      ({ r.1 with no_forward_chats := chat_id :: r.1.no_forward_chats }, false)
    | some e =>
      if e.isChannel && e.noforwards then
        ({ r.1 with no_forward_chats := chat_id :: r.1.no_forward_chats },
         false)
      else (r.1, true)

/-! ## Claim theorem: topic-name lookup (C10) -/

/-- C10: `get_topic_name` called with a falsy topic id (`None` or `0`) returns
`none` at once, leaving the caches untouched (so the synthesized `"Topic
{id}"` fallback is never produced for those inputs), while for every truthy
topic id it returns some string. -/
theorem get_topic_name_falsy_guard (o : TopicOracle) (st : EMState)
    (chat_id : PyKey) (topic_id : Option Int) :
    (truthyOptInt topic_id = false →
      get_topic_name o st chat_id topic_id = (st, none))
    ∧ (truthyOptInt topic_id = true →
      ∃ st2 name, get_topic_name o st chat_id topic_id = (st2, some name)) := by
  constructor
  · intro h
    simp [get_topic_name, h]
  · intro h
    unfold get_topic_name
    rw [if_neg (by simp [h])]
    exact ⟨_, _, rfl⟩

/-- An oracle whose every client call fails. -/
def emptyTopicOracle : TopicOracle :=
  ⟨fun _ => none, fun _ => none, fun _ _ => none, fun _ _ => none⟩

/-- The empty `EntityManager` state (all caches empty, as at startup). -/
def emptyEMState : EMState := ⟨[], [], []⟩

theorem get_topic_name_falsy_guard_witness :
    get_topic_name emptyTopicOracle emptyEMState (.i 1) none
      = (emptyEMState, none)
    ∧ get_topic_name emptyTopicOracle emptyEMState (.i 1) (some 0)
      = (emptyEMState, none)
    ∧ ∃ st2 name,
        get_topic_name emptyTopicOracle emptyEMState (.i 1) (some 7)
          = (st2, some name) :=
  ⟨(get_topic_name_falsy_guard emptyTopicOracle emptyEMState (.i 1) none).1
      (by decide),
   (get_topic_name_falsy_guard emptyTopicOracle emptyEMState (.i 1)
      (some 0)).1 (by decide),
   (get_topic_name_falsy_guard emptyTopicOracle emptyEMState (.i 1)
      (some 7)).2 (by decide)⟩

/-! ## `src/forwarder/forwarding.py` — `ForwardingManager.forward_message` -/

/-- Outcome of the native `client.forward_messages` attempt for one target:
success, a forwarding-restriction error (`ForbiddenError`,
`ChatAdminRequiredError`, `ChannelPrivateError`, forwarding.py:84), or any
other exception (forwarding.py:89). -/
inductive NativeOutcome where
  | ok : NativeOutcome
  | restricted : NativeOutcome
  | err : NativeOutcome
deriving DecidableEq, Repr

/-- Outcome of the reconstruction-path `client.send_message` for one target. -/
inductive SendOutcome where
  | ok : SendOutcome
  | err : SendOutcome
deriving DecidableEq, Repr

/-- The transport outcomes scripted for one target of one message. -/
structure TargetEnv where
  native : NativeOutcome
  sendMain : SendOutcome
deriving DecidableEq, Repr

/-- What happened while processing one target: whether a native forward was
attempted and succeeded, whether the reconstruction path was taken, and
whether the send failed (caught by the per-target `except`,
forwarding.py:133-134, which logs and moves to the next target). -/
structure TargetRecord where
  nativeAttempted : Bool
  nativeOk : Bool
  reconstructed : Bool
  sendFailed : Bool
deriving DecidableEq, Repr

/-- The reconstruction path for one target (forwarding.py:93-132): fetch the
chat title and, for a truthy topic id, the topic name (both may populate the
entity caches), then send the rebuilt message.  The best-effort topic-anchor
edit after a successful native forward and the follow-up media sends have
their own inner `try/except` and touch no modelled state, so they are not
recorded. -/
def reconStep (o : TopicOracle) (st : EMState) (chat_id : PyKey)
    (topic_id : Option Int) (nativeAttempted : Bool) (env : TargetEnv) :
    EMState × TargetRecord :=
  let st1 := (get_chat_title o.resolve st chat_id).1
  let st2 :=
    if truthyOptInt topic_id then (get_topic_name o st1 chat_id topic_id).1
    else st1
  match env.sendMain with
  | .ok => (st2, ⟨nativeAttempted, false, true, false⟩)
  | .err => (st2, ⟨nativeAttempted, false, true, true⟩)

/-- One iteration of the target loop of `forward_message`
(forwarding.py:50-134).  A native forward is attempted only when direct
forwarding is allowed and there is no enrichment content (forwarding.py:57);
a restriction-class failure adds the source chat to the sticky no-forward set
(forwarding.py:87) and falls through to reconstruction, as does any other
native-forward failure (without marking). -/
def forwardOne (o : TopicOracle) (st : EMState) (chat_id : PyKey)
    (topic_id : Option Int) (can_forward_directly has_contents : Bool)
    (env : TargetEnv) : EMState × TargetRecord :=
  if can_forward_directly && !has_contents then
    match env.native with
    | .ok => (st, ⟨true, true, false, false⟩)
    | .restricted =>
      reconStep o
        { st with no_forward_chats := chat_id :: st.no_forward_chats }
        chat_id topic_id true env
    | .err => reconStep o st chat_id topic_id true env
  else reconStep o st chat_id topic_id false env

/-- From `ForwardingManager.forward_message` (forwarding.py:35-134): the
sequential loop over all forwarding targets, threading the entity-manager
state and collecting one record per target. -/
def forward_message (o : TopicOracle) (st : EMState) (chat_id : PyKey)
    (topic_id : Option Int) (can_forward_directly has_contents : Bool) :
    List (FwdDecision × TargetEnv) → EMState × List TargetRecord
  | [] => (st, [])
  | te :: rest =>
    let r := forwardOne o st chat_id topic_id can_forward_directly
      has_contents te.2
    let rr := forward_message o r.1 chat_id topic_id can_forward_directly
      has_contents rest
    (rr.1, r.2 :: rr.2)

/-- The record one target produces, as a function of its own scripted
outcomes alone (it does not depend on the shared state or on the other
targets). -/
def targetRecordOf (can_forward_directly has_contents : Bool)
    (env : TargetEnv) : TargetRecord :=
  if can_forward_directly && !has_contents then
    match env.native with
    | .ok => ⟨true, true, false, false⟩
    | .restricted => ⟨true, false, true, decide (env.sendMain = .err)⟩
    | .err => ⟨true, false, true, decide (env.sendMain = .err)⟩
  else ⟨false, false, true, decide (env.sendMain = .err)⟩

/-! ## `src/forwarder/handlers.py` — the per-event pipeline tail -/

/-- The per-message inputs of one `handle_new_message` run that matter to the
forwarding decision state machine: the source chat, the resolved topic id,
whether enrichment content was collected, and the matched targets paired with
their scripted transport outcomes.  An empty target list models a message no
rule matched. -/
structure EventEnv where
  chatKey : PyKey
  topic : Option Int
  hasContents : Bool
  targets : List (FwdDecision × TargetEnv)
deriving Repr

/-- What one processed event reports: the `can_forward` flag computed by
`handle_new_message` (handlers.py:108) and the per-target records. -/
structure EventRecord where
  canForward : Bool
  records : List TargetRecord
deriving DecidableEq, Repr

/-- The tail of `MessageHandler.handle_new_message` (handlers.py:104-112):
when at least one target matched, compute `can_forward_from_chat` and run
`forward_message`; otherwise nothing happens. -/
def processEvent (o : TopicOracle) (st : EMState) (ev : EventEnv) :
    EMState × Option EventRecord :=
  if ev.targets.isEmpty then (st, none)
  else
    let c := can_forward_from_chat o.resolve st ev.chatKey
    let f := forward_message o c.1 ev.chatKey ev.topic c.2 ev.hasContents
      ev.targets
    (f.1, some ⟨c.2, f.2⟩)

/-- A run: process a list of message events in order, threading the shared
`EntityManager` state. -/
def processEvents (o : TopicOracle) (st : EMState) :
    List EventEnv → EMState
  | [] => st
  | ev :: rest => processEvents o (processEvent o st ev).1 rest


/-! ## No-forward stickiness lemmas -/

lemma get_entity_no_forward (resolve : PyKey → Option PyEntity) (st : EMState)
    (k : PyKey) :
    (get_entity resolve st k).1.no_forward_chats = st.no_forward_chats := by
  unfold get_entity
  cases alist_get st.chat_entities k with
  | some e => rfl
  | none => cases resolve k <;> rfl

lemma get_chat_title_no_forward (resolve : PyKey → Option PyEntity)
    (st : EMState) (k : PyKey) :
    (get_chat_title resolve st k).1.no_forward_chats
      = st.no_forward_chats := by
  simp only [get_chat_title]
  split <;> simp [get_entity_no_forward]

lemma topicCacheInit_no_forward (st : EMState) (k : PyKey) :
    (topicCacheInit st k).no_forward_chats = st.no_forward_chats := by
  unfold topicCacheInit
  split <;> rfl

lemma topicMethod1_no_forward (o : TopicOracle) (ent : Option PyEntity)
    (st : EMState) (k : PyKey) (t : Int) :
    (topicMethod1 o ent st k t).1.no_forward_chats = st.no_forward_chats := by
  unfold topicMethod1
  cases ent with
  | none => rfl
  | some e =>
    cases hm : (e.isChannel && e.megagroup) with
    | false => simp [hm]
    | true => cases o.fullTopics k <;> simp [hm]

lemma cacheTopic_no_forward (st : EMState) (k : PyKey) (t : Int)
    (name : String) :
    (cacheTopic st k t name).no_forward_chats = st.no_forward_chats := rfl

lemma getTopicNameTruthy_no_forward (o : TopicOracle) (st : EMState)
    (k : PyKey) (t : Int) :
    (getTopicNameTruthy o st k t).1.no_forward_chats
      = st.no_forward_chats := by
  unfold getTopicNameTruthy
  cases (alist_get st.chat_topics k).bind (fun m => alist_get m t) with
  | some name => rfl
  | none =>
    simp only
    split
    · simp [topicMethod1_no_forward, get_entity_no_forward,
        topicCacheInit_no_forward]
    · cases o.starterTitle k t with
      | some title =>
        simp [cacheTopic_no_forward, topicMethod1_no_forward,
          get_entity_no_forward, topicCacheInit_no_forward]
      | none =>
        cases o.discussionTitle k t <;>
          simp [cacheTopic_no_forward, topicMethod1_no_forward,
            get_entity_no_forward, topicCacheInit_no_forward]

lemma get_topic_name_no_forward (o : TopicOracle) (st : EMState) (k : PyKey)
    (t : Option Int) :
    (get_topic_name o st k t).1.no_forward_chats = st.no_forward_chats := by
  unfold get_topic_name
  split
  · rfl
  · simpa using getTopicNameTruthy_no_forward o st k (t.getD 0)

lemma reconStep_no_forward (o : TopicOracle) (st : EMState) (k : PyKey)
    (t : Option Int) (na : Bool) (env : TargetEnv) :
    (reconStep o st k t na env).1.no_forward_chats = st.no_forward_chats := by
  unfold reconStep
  cases env.sendMain <;>
  · by_cases ht : truthyOptInt t = true
    · simp [ht, get_topic_name_no_forward, get_chat_title_no_forward]
    · simp [ht, get_chat_title_no_forward]

lemma forwardOne_no_forward_mono (o : TopicOracle) (st : EMState) (k c : PyKey)
    (t : Option Int) (cd hc : Bool) (env : TargetEnv)
    (h : k ∈ st.no_forward_chats) :
    k ∈ (forwardOne o st c t cd hc env).1.no_forward_chats := by
  unfold forwardOne
  by_cases hcd : (cd && !hc) = true
  · rw [if_pos hcd]
    cases env.native with
    | ok => exact h
    | restricted =>
      rw [reconStep_no_forward]
      exact List.mem_cons_of_mem _ h
    | err =>
      rw [reconStep_no_forward]
      exact h
  · rw [if_neg hcd, reconStep_no_forward]
    exact h

lemma forwardOne_adds_no_forward (o : TopicOracle) (st : EMState) (c : PyKey)
    (t : Option Int) (env : TargetEnv)
    (h : env.native = .restricted) :
    c ∈ (forwardOne o st c t true false env).1.no_forward_chats := by
  unfold forwardOne
  rw [if_pos (by decide : ((true && !false) = true))]
  simp only [h]
  rw [reconStep_no_forward]
  exact List.mem_cons_self _ _

lemma forward_message_no_forward_mono (o : TopicOracle) (st : EMState)
    (k c : PyKey) (t : Option Int) (cd hc : Bool)
    (targets : List (FwdDecision × TargetEnv))
    (h : k ∈ st.no_forward_chats) :
    k ∈ (forward_message o st c t cd hc targets).1.no_forward_chats := by
  induction targets generalizing st with
  | nil => exact h
  | cons te rest ih =>
    exact ih _ (forwardOne_no_forward_mono o st k c t cd hc te.2 h)

lemma forward_message_adds_no_forward (o : TopicOracle) (st : EMState)
    (c : PyKey) (t : Option Int) (targets : List (FwdDecision × TargetEnv))
    (te : FwdDecision × TargetEnv) (hmem : te ∈ targets)
    (h : te.2.native = .restricted) :
    c ∈ (forward_message o st c t true false targets).1.no_forward_chats := by
  induction targets generalizing st with
  | nil => cases hmem
  | cons hd rest ih =>
    rcases List.mem_cons.mp hmem with heq | htl
    · subst heq
      exact forward_message_no_forward_mono o _ c c t true false rest
        (forwardOne_adds_no_forward o st c t te.2 h)
    · exact ih _ htl

lemma can_forward_no_forward_mono (resolve : PyKey → Option PyEntity)
    (st : EMState) (k c : PyKey) (h : k ∈ st.no_forward_chats) :
    k ∈ (can_forward_from_chat resolve st c).1.no_forward_chats := by
  unfold can_forward_from_chat
  by_cases hc : c ∈ st.no_forward_chats
  · simp only [hc, if_pos]
    exact h
  · simp only [hc, if_neg, not_false_iff]
    have hent := get_entity_no_forward resolve st c
    split
    · exact List.mem_cons_of_mem _ (hent ▸ h)
    · split
      · exact List.mem_cons_of_mem _ (hent ▸ h)
      · exact hent ▸ h

lemma can_forward_of_mem (resolve : PyKey → Option PyEntity) (st : EMState)
    (c : PyKey) (h : c ∈ st.no_forward_chats) :
    can_forward_from_chat resolve st c = (st, false) := by
  unfold can_forward_from_chat
  simp [h]

lemma processEvent_no_forward_mono (o : TopicOracle) (st : EMState)
    (k : PyKey) (ev : EventEnv) (h : k ∈ st.no_forward_chats) :
    k ∈ (processEvent o st ev).1.no_forward_chats := by
  unfold processEvent
  split
  · exact h
  · exact forward_message_no_forward_mono o _ k ev.chatKey ev.topic _
      ev.hasContents ev.targets
      (can_forward_no_forward_mono o.resolve st k ev.chatKey h)

lemma processEvents_no_forward_mono (o : TopicOracle) (st : EMState)
    (k : PyKey) (evs : List EventEnv) (h : k ∈ st.no_forward_chats) :
    k ∈ (processEvents o st evs).no_forward_chats := by
  induction evs generalizing st with
  | nil => exact h
  | cons ev rest ih =>
    exact ih _ (processEvent_no_forward_mono o st k ev h)

lemma forwardOne_record (o : TopicOracle) (st : EMState) (c : PyKey)
    (t : Option Int) (cd hc : Bool) (env : TargetEnv) :
    (forwardOne o st c t cd hc env).2 = targetRecordOf cd hc env := by
  unfold forwardOne targetRecordOf
  by_cases hcd : (cd && !hc) = true
  · rw [if_pos hcd, if_pos hcd]
    cases env.native with
    | ok => rfl
    | restricted =>
      unfold reconStep
      cases hs : env.sendMain <;> simp [hs]
    | err =>
      unfold reconStep
      cases hs : env.sendMain <;> simp [hs]
  · rw [if_neg hcd, if_neg hcd]
    unfold reconStep
    cases hs : env.sendMain <;> simp [hs]

lemma forward_message_records (o : TopicOracle) (st : EMState) (c : PyKey)
    (t : Option Int) (cd hc : Bool)
    (targets : List (FwdDecision × TargetEnv)) :
    (forward_message o st c t cd hc targets).2
      = targets.map (fun te => targetRecordOf cd hc te.2) := by
  induction targets generalizing st with
  | nil => rfl
  | cons te rest ih =>
    show (forwardOne o st c t cd hc te.2).2
        :: (forward_message o (forwardOne o st c t cd hc te.2).1 c t cd hc
            rest).2
      = _
    rw [forwardOne_record, ih]
    rfl

/-! ## Claim theorem: per-target failure isolation (C9) -/

/-- C9: the target loop of `forward_message` produces exactly one record per
target, and each target's record is a function of that target's own scripted
transport outcomes alone; in particular an error while delivering to one
target (recorded as `sendFailed`, the caught per-target exception) leaves
every other target attempted with its own outcome unchanged. -/
theorem forward_message_isolates_targets (o : TopicOracle) (st : EMState)
    (c : PyKey) (t : Option Int) (cd hc : Bool)
    (targets : List (FwdDecision × TargetEnv)) :
    (forward_message o st c t cd hc targets).2
      = targets.map (fun te => targetRecordOf cd hc te.2)
    ∧ (forward_message o st c t cd hc targets).2.length = targets.length :=
  ⟨forward_message_records o st c t cd hc targets,
   by rw [forward_message_records, List.length_map]⟩

/-! ## Claim theorem: sticky forwarding-denied state (C4) -/

/-- C4: once a native forward from chat X fails with a forwarding-restriction
error, X is put in the sticky no-forward set; after any interleaved events,
every later matched message from X reports `canForward = false` and every one
of its targets skips the native-forward attempt and takes the reconstruction
path. -/
theorem no_forward_sticky (o : TopicOracle) (st : EMState) (evI : EventEnv)
    (mid : List EventEnv) (evJ : EventEnv)
    (hcf : (can_forward_from_chat o.resolve st evI.chatKey).2 = true)
    (hnc : evI.hasContents = false)
    (hre : ∃ te ∈ evI.targets, te.2.native = NativeOutcome.restricted)
    (hchat : evJ.chatKey = evI.chatKey)
    (hjt : evJ.targets ≠ []) :
    evI.chatKey ∈ (processEvent o st evI).1.no_forward_chats
    ∧ ∃ r, (processEvent o (processEvents o (processEvent o st evI).1 mid)
          evJ).2 = some r
        ∧ r.canForward = false
        ∧ ∀ tr ∈ r.records,
            tr.nativeAttempted = false ∧ tr.reconstructed = true := by
  obtain ⟨te, hmem, hnat⟩ := hre
  have hne : evI.targets ≠ [] := by
    intro hnil
    rw [hnil] at hmem
    cases hmem
  have hstep : evI.chatKey ∈ (processEvent o st evI).1.no_forward_chats := by
    unfold processEvent
    rw [if_neg (by simpa [List.isEmpty_iff] using hne)]
    show evI.chatKey ∈
      (forward_message o (can_forward_from_chat o.resolve st evI.chatKey).1
        evI.chatKey evI.topic
        (can_forward_from_chat o.resolve st evI.chatKey).2 evI.hasContents
        evI.targets).1.no_forward_chats
    rw [hcf, hnc]
    exact forward_message_adds_no_forward o _ evI.chatKey evI.topic
      evI.targets te hmem hnat
  refine ⟨hstep, ?_⟩
  have hmid : evI.chatKey ∈
      (processEvents o (processEvent o st evI).1 mid).no_forward_chats :=
    processEvents_no_forward_mono o _ _ mid hstep
  set st2 := processEvents o (processEvent o st evI).1 mid with hst2
  have hcfj : can_forward_from_chat o.resolve st2 evJ.chatKey
      = (st2, false) := by
    apply can_forward_of_mem
    rw [hchat]
    exact hmid
  refine ⟨⟨false,
    (forward_message o st2 evJ.chatKey evJ.topic false evJ.hasContents
      evJ.targets).2⟩, ?_, rfl, ?_⟩
  · unfold processEvent
    rw [if_neg (by simpa [List.isEmpty_iff] using hjt), hcfj]
  · intro tr htr
    rw [forward_message_records o st2 evJ.chatKey evJ.topic false
      evJ.hasContents evJ.targets] at htr
    obtain ⟨tep, _, hrec⟩ := List.mem_map.mp htr
    rw [← hrec]
    unfold targetRecordOf
    rw [if_neg (by simp)]
    exact ⟨rfl, rfl⟩

/-- A plain, forwardable group entity. -/
def demoEntity : PyEntity := ⟨false, false, false, false, some "Demo"⟩

/-- A transport oracle that resolves every chat to `demoEntity` and fails
every topic lookup. -/
def demoOracle : TopicOracle :=
  ⟨fun _ => some demoEntity, fun _ => none, fun _ _ => none, fun _ _ => none⟩

/-- Scripted events for the stickiness scenario: a first message from chat 5
whose native forward hits a restriction error, then a second message from
chat 5 whose transport would accept a native forward. -/
def demoEvI : EventEnv :=
  ⟨.i 5, none, false, [(⟨"999", none, true⟩, ⟨.restricted, .ok⟩)]⟩

/-- The follow-up event from the same chat. -/
def demoEvJ : EventEnv :=
  ⟨.i 5, none, false, [(⟨"999", none, true⟩, ⟨.ok, .ok⟩)]⟩

theorem no_forward_sticky_witness :
    demoEvI.chatKey ∈
      (processEvent demoOracle emptyEMState demoEvI).1.no_forward_chats
    ∧ ∃ r, (processEvent demoOracle
          (processEvents demoOracle
            (processEvent demoOracle emptyEMState demoEvI).1 [])
          demoEvJ).2 = some r
        ∧ r.canForward = false
        ∧ ∀ tr ∈ r.records,
            tr.nativeAttempted = false ∧ tr.reconstructed = true :=
  no_forward_sticky demoOracle emptyEMState demoEvI [] demoEvJ (by decide)
    rfl ⟨(⟨"999", none, true⟩, ⟨.restricted, .ok⟩), List.mem_cons_self _ _,
      rfl⟩ rfl (by decide)

/-! ## `src/forwarder/processors.py` — `MessageProcessor.extract_topic_id` -/

/-- The reply metadata object (`message.reply_to`) as probed by
`extract_topic_id`.  `forum_topic` models `hasattr(r, 'forum_topic') and
r.forum_topic` (absent ≡ falsy); the id fields are `hasattr`-probed and may
hold Python `None`, hence the nested options. -/
structure PyReplyTo where
  forum_topic : Bool
  top_msg_id : Option (Option Int)
  reply_to_top_id : Option (Option Int)
  reply_to_msg_id : Option (Option Int)
deriving DecidableEq, Repr

/-- The message fields `extract_topic_id` probes: the `hasattr`-guarded
`topic_id` and `topic` attributes, the reply metadata (`None` ≡ falsy), the
channel-post flag, and the message id. -/
structure TopicMessage where
  topic_id : Option (Option Int)
  topic : Option (Option Int)
  reply_to : Option PyReplyTo
  post : Bool
  id : Int
deriving DecidableEq, Repr

/-- The reply-metadata branch of `extract_topic_id`
(processors.py:146-176): the `forum_topic`-flagged probes, the generic
probes, then the `reply_to_msg_id` guess (the chat is known to be a forum at
this point). -/
def replyBranchTopic (reply_to : PyReplyTo) : Option Int :=
  let fromFlags : Option Int :=
    if reply_to.forum_topic then
      match reply_to.top_msg_id with
      | some v => v
      | none =>
        match reply_to.reply_to_top_id with
        | some v => v
        | none => none
    else
      match reply_to.reply_to_top_id with
      | some v => v
      | none =>
        match reply_to.top_msg_id with
        | some v => v
        | none => none
  match fromFlags with
  | some v => some v
  | none =>
    match reply_to.reply_to_msg_id with
    | some v => v
    | none => none

/-- From `MessageProcessor.extract_topic_id` (processors.py:113-189).
`entityLookup` is the result of `client.get_entity(chat_id)`, with `none`
for an exception; the exception is caught and the function returns the
still-unassigned `topic_id`, i.e. `none`.  A non-forum chat yields `none`;
then the attribute chain runs, ending in the topic-starter guess and the
default topic id 1. -/
def extract_topic_id (entityLookup : Option PyEntity) (message : TopicMessage) :
    Option Int :=
  match entityLookup with
  | none => none
  | some entity =>
    if !entity.forum then none
    else
      match message.topic_id with
      | some v => v
      | none =>
        match message.topic with
        | some v => v
        | none =>
          match message.reply_to with
          | some reply_to => replyBranchTopic reply_to
          | none =>
            if message.post then some message.id
            else some 1

/-! ## Claim theorem: topic resolution (C3) -/

/-- C3: topic resolution follows the precedence chain with first success
winning — a chat that is not a forum yields `none` before any message probe;
an explicit topic field wins over everything after it; a topic-starting post
in a forum yields the message's own id; a forum message with no topic field,
no reply metadata and no post flag yields the default topic id 1; and a
failing entity lookup degrades to `none` instead of raising (the embedding
is a total function, so no exception can escape). -/
theorem extract_topic_id_spec (entityLookup : Option PyEntity)
    (message : TopicMessage) :
    (∀ e, entityLookup = some e → e.forum = false →
      extract_topic_id entityLookup message = none)
    ∧ (∀ e v, entityLookup = some e → e.forum = true →
        message.topic_id = some v →
        extract_topic_id entityLookup message = v)
    ∧ (∀ e, entityLookup = some e → e.forum = true →
        message.topic_id = none → message.topic = none →
        message.reply_to = none → message.post = true →
        extract_topic_id entityLookup message = some message.id)
    ∧ (∀ e, entityLookup = some e → e.forum = true →
        message.topic_id = none → message.topic = none →
        message.reply_to = none → message.post = false →
        extract_topic_id entityLookup message = some 1)
    ∧ (entityLookup = none → extract_topic_id entityLookup message = none) := by
  refine ⟨fun e he hf => ?_, fun e v he hf h1 => ?_,
    fun e he hf h1 h2 h3 h4 => ?_, fun e he hf h1 h2 h3 h4 => ?_,
    fun h => ?_⟩
  · rw [he]
    simp [extract_topic_id, hf]
  · rw [he]
    simp [extract_topic_id, hf, h1]
  · rw [he]
    simp [extract_topic_id, hf, h1, h2, h3, h4]
  · rw [he]
    simp [extract_topic_id, hf, h1, h2, h3, h4]
  · rw [h]
    rfl

/-- A forum entity for the C3 witness. -/
def forumEntity : PyEntity := ⟨true, false, true, true, some "Forum"⟩

/-- A bare message: no topic attributes, no reply metadata, not a post. -/
def bareMessage : TopicMessage := ⟨none, none, none, false, 77⟩

/-- A message carrying an explicit `topic_id` attribute with value 9. -/
def topicAttrMessage : TopicMessage := ⟨some (some 9), none, none, false, 77⟩

/-- A topic-starting channel post. -/
def starterMessage : TopicMessage := ⟨none, none, none, true, 77⟩

theorem extract_topic_id_spec_witness :
    extract_topic_id (some demoEntity) bareMessage = none
    ∧ extract_topic_id (some forumEntity) topicAttrMessage = some 9
    ∧ extract_topic_id (some forumEntity) starterMessage = some 77
    ∧ extract_topic_id (some forumEntity) bareMessage = some 1
    ∧ extract_topic_id none bareMessage = none :=
  ⟨(extract_topic_id_spec (some demoEntity) bareMessage).1 demoEntity rfl rfl,
   (extract_topic_id_spec (some forumEntity) topicAttrMessage).2.1 forumEntity
     (some 9) rfl rfl rfl,
   (extract_topic_id_spec (some forumEntity) starterMessage).2.2.1 forumEntity
     rfl rfl rfl rfl rfl rfl,
   (extract_topic_id_spec (some forumEntity) bareMessage).2.2.2.1 forumEntity
     rfl rfl rfl rfl rfl rfl,
   (extract_topic_id_spec none bareMessage).2.2.2.2 rfl⟩

/-! ## `src/forwarder/processors.py` — `format_message_for_forwarding` -/

/-- The sender object as probed by the formatter: the name attributes are
read with `getattr(s, f, '')` and tested only for truthiness, so `""` models
both an absent attribute and Python `None`/empty; `id` models the
`hasattr(sender, 'id')` probe. -/
structure PySender where
  first_name : String
  last_name : String
  username : String
  id : Option Int
deriving DecidableEq, Repr

/-- The message fields the formatter's body-resolution chain probes, each
tested only for truthiness (`""` ≡ absent): the `_extracted_text` attribute
planted by the pipeline, the three standard text attributes, the
`to_dict()['message']` fallback, and the media object (modelled by its
Python type name, e.g. `"MessageMediaPhoto"`). -/
structure FmtMsg where
  extracted_text : String
  message : String
  text : String
  raw_text : String
  dict_message : Option String
  media : Option String
deriving DecidableEq, Repr

/-- From `utils.get_media_type_name` (utils.py:64-76):
`type(media).__name__.replace('MessageMedia', '')`, `none` for no media. -/
def get_media_type_name (media : Option String) : Option String :=
  media.map (fun s => s.replace "MessageMedia" "")

/-- The result of `format_message_for_forwarding`: the rendered text plus the
message's media passed through unchanged (`entities` also passes through and
is not modelled). -/
structure FormattedMessage where
  text : String
  media : Option String
deriving DecidableEq, Repr

/-- From `MessageProcessor.format_message_for_forwarding`
(processors.py:30-111).  `sender_result` is `await message.get_sender()`,
with `none` for an exception (caught, sender name `"Unknown User"`). -/
def format_message_for_forwarding (sender_result : Option PySender)
    (is_reply : Bool) (linked_from : Option String) (m : FmtMsg) :
    FormattedMessage :=
  let sender_name :=
    match sender_result with
    | none => "Unknown User"
    | some s =>
      let n0 := s.first_name
      let n1 := if s.last_name ≠ "" then n0 ++ " " ++ s.last_name else n0
      let n2 :=
        if s.username ≠ "" then n1 ++ " (@" ++ s.username ++ ")" else n1
      if n2 = "" then
        match s.id with
        | some i => "User " ++ toString i
        | none => "Unknown User"
      else n2
  let head :=
    if is_reply then "⤴️ **In reply to:**\n"
    else
      match linked_from with
      | some url =>
        if url ≠ "" then "🔗 **Linked message:** " ++ url ++ "\n" else ""
      | none => ""
  let t0 :=
    if m.extracted_text ≠ "" then m.extracted_text
    else if m.message ≠ "" then m.message
    else if m.text ≠ "" then m.text
    else if m.raw_text ≠ "" then m.raw_text
    else ""
  let t1 :=
    if t0 = "" then
      match m.dict_message with
      | some d => d
      | none => t0
    else t0
  let message_text :=
    if t1 = "" then
      match m.media with
      | some _ => "[Message with " ++ (get_media_type_name m.media).getD ""
          ++ "]"
      | none => "[Empty message]"
    else t1
  ⟨head ++ "**" ++ sender_name ++ ":** " ++ message_text, m.media⟩

/-- Spec-side sender display (processors.py:43-54). -/
def senderDisplay (sender_result : Option PySender) : String :=
  match sender_result with
  | none => "Unknown User"
  | some s =>
    let n0 := s.first_name
    let n1 := if s.last_name ≠ "" then n0 ++ " " ++ s.last_name else n0
    let n2 := if s.username ≠ "" then n1 ++ " (@" ++ s.username ++ ")" else n1
    if n2 = "" then
      match s.id with
      | some i => "User " ++ toString i
      | none => "Unknown User"
    else n2

/-- Spec-side kind marker (processors.py:56-63). -/
def fmtHeader (is_reply : Bool) (linked_from : Option String) : String :=
  if is_reply then "⤴️ **In reply to:**\n"
  else
    match linked_from with
    | some url =>
      if url ≠ "" then "🔗 **Linked message:** " ++ url ++ "\n" else ""
    | none => ""

/-- Spec-side body-or-placeholder resolution (processors.py:65-101). -/
def fmtBody (m : FmtMsg) : String :=
  let t0 :=
    if m.extracted_text ≠ "" then m.extracted_text
    else if m.message ≠ "" then m.message
    else if m.text ≠ "" then m.text
    else if m.raw_text ≠ "" then m.raw_text
    else ""
  let t1 :=
    if t0 = "" then
      match m.dict_message with
      | some d => d
      | none => t0
    else t0
  if t1 = "" then
    match m.media with
    | some _ => "[Message with " ++ (get_media_type_name m.media).getD "" ++ "]"
    | none => "[Empty message]"
  else t1

/-- A text-only message with body `"hi"`. -/
def msgHi : FmtMsg := ⟨"", "hi", "", "", none, none⟩

/-! ## Claim theorems: secondary-message formatting (C8) -/

/-- C8 counterexample: the claim's plain rendering `"{senderDisplay}:
{body}"` does not match the code, which wraps the sender display in bold
markers, so a sender with only first name `"Amy"` and body `"hi"` yields
`"**Amy:** hi"`, not `"Amy: hi"`. -/
theorem format_plain_shape_cex :
    (format_message_for_forwarding (some ⟨"Amy", "", "", none⟩) false none
      msgHi).text = "**Amy:** hi"
    ∧ (format_message_for_forwarding (some ⟨"Amy", "", "", none⟩) false none
      msgHi).text ≠ "Amy: hi" := by
  constructor
  · rfl
  · decide

/-- C8 amended: formatting builds
`"{header}**{senderDisplay}:** {bodyOrPlaceholder}"` where the header is
`"⤴️ **In reply to:**\n"` for a reply, `"🔗 **Linked message:** {url}\n"`
for a linked message with a truthy url and empty otherwise, and the sender
display is the first name, optionally extended by `" {last}"` and
`" (@{username})"`, falling back to `"User {id}"` and then `"Unknown
User"` when no name fields exist (also when the sender lookup fails). -/
theorem format_message_shape (sender_result : Option PySender)
    (is_reply : Bool) (linked_from : Option String) (m : FmtMsg) :
    (format_message_for_forwarding sender_result is_reply linked_from m).text
      = fmtHeader is_reply linked_from ++ "**" ++ senderDisplay sender_result
        ++ ":** " ++ fmtBody m
    ∧ fmtHeader true linked_from = "⤴️ **In reply to:**\n"
    ∧ (∀ url : String, url ≠ "" →
        fmtHeader false (some url) = "🔗 **Linked message:** " ++ url ++ "\n")
    ∧ fmtHeader false none = ""
    ∧ (∀ s : PySender, s.first_name ≠ "" → s.last_name = "" →
        s.username = "" → senderDisplay (some s) = s.first_name)
    ∧ (∀ i : Int, senderDisplay (some ⟨"", "", "", some i⟩)
        = "User " ++ toString i)
    ∧ senderDisplay (some ⟨"", "", "", none⟩) = "Unknown User"
    ∧ senderDisplay none = "Unknown User" := by
  refine ⟨rfl, rfl, fun url hu => ?_, rfl, fun s h1 h2 h3 => ?_, fun i => rfl,
    rfl, rfl⟩
  · simp [fmtHeader, hu]
  · simp [senderDisplay, h1, h2, h3]

theorem format_message_shape_witness :
    (format_message_for_forwarding (some ⟨"Amy", "", "", none⟩) false none
        msgHi).text
      = fmtHeader false none ++ "**"
        ++ senderDisplay (some ⟨"Amy", "", "", none⟩) ++ ":** " ++ fmtBody msgHi
    ∧ fmtHeader false (some "https://t.me/c/1/2")
      = "🔗 **Linked message:** https://t.me/c/1/2\n"
    ∧ senderDisplay (some ⟨"Amy", "", "", none⟩) = "Amy" := by
  refine ⟨(format_message_shape (some ⟨"Amy", "", "", none⟩) false none
    msgHi).1, ?_, ?_⟩
  · exact (format_message_shape (some ⟨"Amy", "", "", none⟩) false none
      msgHi).2.2.1 "https://t.me/c/1/2" (by decide)
  · exact (format_message_shape (some ⟨"Amy", "", "", none⟩) false none
      msgHi).2.2.2.2.1 ⟨"Amy", "", "", none⟩ (by decide) rfl rfl

/-! ## `src/forwarder/link_manager.py` — `LinkManager.fetch_linked_message` -/

/-- Python `str.isdigit()`: non-empty and all digit characters. -/
def isDigits (s : String) : Bool := !s.data.isEmpty && s.data.all (·.isDigit)

/-- One `MessageLinkRecord` from `extract_message_links`
(link_manager.py:35-73): `chat_id` holds the numeric id of a `t.me/c/...`
link, `username` the public-link name; `none` models an absent dict key. -/
structure LinkData where
  full_match : String
  chat_id : Option String
  username : Option String
  message_id : Int
  topic_id : Option Int
deriving DecidableEq, Repr

/-- A fetched message as probed by `fetch_linked_message`: the three text
attributes (truthiness only, `""` ≡ absent) and the `_extracted_text`
attribute the function plants before caching. -/
structure LinkedMsg where
  message : String
  text : String
  raw_text : String
  extracted_text : Option String
deriving DecidableEq, Repr

/-- The mutable state of `LinkManager` (link_manager.py:33). -/
structure LMState where
  resolved_message_links : List (String × LinkedMsg)
deriving DecidableEq, Repr

/-- The cache key of link_manager.py:86:
`f"{link_data.get('chat_id', link_data.get('username'))}-{message_id}"`
(Python renders a doubly-missing key, `None`, as `"None"`). -/
def linkCacheKey (ld : LinkData) : String :=
  (match ld.chat_id with
   | some c => c
   | none =>
     match ld.username with
     | some u => u
     | none => "None") ++ "-" ++ toString ld.message_id

/-- The chat reference `fetch_linked_message` resolves
(link_manager.py:92-104): a numeric `t.me/c/...` id gains the `-100`
supergroup marker when missing; a missing `username` key raises a `KeyError`
that the function-level `except` turns into a `none` return. -/
def fetchChatKey (ld : LinkData) : Option PyKey :=
  match ld.chat_id with
  | some cid =>
    some (.s (if !(strStartsWith cid "-100") && isDigits cid then
        "-100" ++ cid
      else cid))
  | none => ld.username.map PyKey.s

/-- Does any of the three text attributes hold text? -/
def lmsgHasText (m : LinkedMsg) : Bool :=
  m.message ≠ "" || m.text ≠ "" || m.raw_text ≠ ""

/-- The three fetch strategies of `fetch_linked_message`, as oracles:
`a1` is the plain `get_messages` result, `a2` the topic-scoped fetch, `a3`
the first raw message of `GetMessagesRequest`; `none` covers an exception or
an empty/falsy result, which the code treats identically. -/
structure FetchOracle where
  a1 : Option LinkedMsg
  a2 : Option LinkedMsg
  a3 : Option LinkedMsg

/-- From `LinkManager.fetch_linked_message` (link_manager.py:75-215): cache
probe, chat resolution through the entity manager, the three fetch
strategies, then `_extracted_text` planting and caching.  Every failure path
returns `none` without writing to the link cache. -/
def fetch_linked_message (resolve : PyKey → Option PyEntity)
    (ora : FetchOracle) (em : EMState) (ls : LMState) (ld : LinkData) :
    EMState × LMState × Option LinkedMsg :=
  match alist_get ls.resolved_message_links (linkCacheKey ld) with
  | some m => (em, ls, some m)
  | none =>
    match fetchChatKey ld with
    | none => (em, ls, none)
    | some ck =>
      let r := get_entity resolve em ck
      match r.2 with
      | none => (r.1, ls, none)
      | some _ =>
        let m1 := ora.a1
        let m2 :=
          if truthyOptInt ld.topic_id &&
              (match m1 with
               | none => true
               | some mm => decide (mm.message = "")) then
            match ora.a2 with
            | some mm2 => if lmsgHasText mm2 then some mm2 else m1
            | none => m1
          else m1
        let m3 :=
          if (match m2 with
              | none => true
              | some mm => !lmsgHasText mm) then
            match ora.a3 with
            | some raw =>
              if raw.message ≠ "" then
                match m2 with
                | none => some raw
                | some mm => some { mm with message := raw.message }
              else m2
            | none => m2
          else m2
        match m3 with
        | none => (r.1, ls, none)
        | some mm =>
          let ext :=
            if mm.message ≠ "" then mm.message
            else if mm.text ≠ "" then mm.text
            else if mm.raw_text ≠ "" then mm.raw_text
            else ""
          let mm2 := { mm with extracted_text := some ext }
          (r.1,
           { ls with
               resolved_message_links :=
                 alist_set ls.resolved_message_links (linkCacheKey ld) mm2 },
           some mm2)

lemma get_entity_miss (resolve : PyKey → Option PyEntity) (st : EMState)
    (k : PyKey) (hc : alist_get st.chat_entities k = none)
    (hr : resolve k = none) :
    get_entity resolve st k = (st, none) := by
  unfold get_entity
  rw [hc, hr]

/-- The empty link cache. -/
def emptyLMState : LMState := ⟨[]⟩

/-- The `t.me/c/555/10` link record of the spec's extraction example. -/
def demoLink : LinkData := ⟨"https://t.me/c/555/10", some "555", none, 10, none⟩

/-- An oracle whose every fetch strategy fails. -/
def emptyFetchOracle : FetchOracle := ⟨none, none, none⟩

/-! ## Claim theorems: lookup-failure caching (C7) -/

/-- C7 counterexample: a linked-message lookup whose entity resolution fails
returns `none` and records nothing at all — the link cache stays empty, the
entity cache stays empty and no chat is marked permission-denied — refuting
the claim that every lookup failure is recorded as a permanent negative
cache entry and that an entity-resolution miss itself marks the chat
permission-denied. -/
theorem lookup_failure_not_recorded_cex :
    fetch_linked_message (fun _ => none) emptyFetchOracle emptyEMState
      emptyLMState demoLink = (emptyEMState, emptyLMState, none)
    ∧ get_entity (fun _ => none) emptyEMState (.s "-100555")
      = (emptyEMState, none)
    ∧ emptyEMState.chat_entities = []
    ∧ emptyEMState.no_forward_chats = []
    ∧ emptyLMState.resolved_message_links = [] := by
  refine ⟨?_, rfl, rfl, rfl, rfl⟩
  rfl

/-- C7 amended: a failed entity lookup and a failed linked-message fetch
return `none` without recording any cache entry (so they are retried on
later calls); the permanent negative record exists only in
`can_forward_from_chat`, which marks a chat whose entity cannot be resolved
as permission-denied in the sticky no-forward set; each operation returns a
value instead of raising, so the pipeline continues with degraded context. -/
theorem lookup_failure_amended (resolve : PyKey → Option PyEntity)
    (ora : FetchOracle) (em : EMState) (ls : LMState) (ld : LinkData)
    (ck : PyKey)
    (h1 : alist_get ls.resolved_message_links (linkCacheKey ld) = none)
    (h2 : fetchChatKey ld = some ck)
    (h3 : alist_get em.chat_entities ck = none)
    (h4 : resolve ck = none) :
    fetch_linked_message resolve ora em ls ld = (em, ls, none)
    ∧ (∀ (st : EMState) (k : PyKey), alist_get st.chat_entities k = none →
        resolve k = none → get_entity resolve st k = (st, none))
    ∧ (∀ (st : EMState) (k : PyKey), k ∉ st.no_forward_chats →
        alist_get st.chat_entities k = none → resolve k = none →
        can_forward_from_chat resolve st k
          = ({ st with no_forward_chats := k :: st.no_forward_chats },
             false)) := by
  refine ⟨?_, fun st k hc hr => get_entity_miss resolve st k hc hr,
    fun st k hmem hc hr => ?_⟩
  · simp only [fetch_linked_message, h1, h2]
    rw [get_entity_miss resolve em ck h3 h4]
  · simp only [can_forward_from_chat]
    rw [if_neg hmem, get_entity_miss resolve st k hc hr]

theorem lookup_failure_amended_witness :
    fetch_linked_message (fun _ => none) emptyFetchOracle emptyEMState
      emptyLMState demoLink = (emptyEMState, emptyLMState, none)
    ∧ can_forward_from_chat (fun _ => none) emptyEMState (.i 5)
      = ({ emptyEMState with no_forward_chats := [.i 5] }, false) := by
  have h := lookup_failure_amended (fun _ => none) emptyFetchOracle
    emptyEMState emptyLMState demoLink (.s "-100555") rfl (by decide) rfl rfl
  exact ⟨h.1, h.2.2 emptyEMState (.i 5) (by decide) rfl rfl⟩
